import Mathlib

/-!
Shallow embedding of the go-msgraph client library: the mail-message
builder (SendMail source file), the GraphClient credential-refresh and
call path (GraphClient.go), and the JSON round-trip behaviour of the
mail model. Definitions are translated from the Go source; types that
the repository defines outside the provided sources (Token, the
EmailAddress record, the URL constants) are modelled from the
specification and marked as such in their doc comments.
-/

/-- Modelled from the spec: the EmailAddress record is referenced by the
mail builder but defined outside the provided sources; per the spec a
recipient carries an address and an optional display name. -/
structure EmailAddress where
  Name : String := ""
  Address : String := ""
  deriving Repr, DecidableEq

/-- Go struct Recipient: wraps an EmailAddress under json tag
emailAddress. -/
structure Recipient where
  EmailAddress : EmailAddress := {}
  deriving Repr, DecidableEq

/-- Go struct MsgBody: contentType and content fields. -/
structure MsgBody where
  ContentType : String := ""
  Content : String := ""
  deriving Repr, DecidableEq

/-- Go struct Attachment: odata type discriminator, name, content type
and base64 content bytes. -/
structure Attachment where
  DataType : String := ""
  Name : String := ""
  ContentType : String := ""
  ContentBytes : String := ""
  deriving Repr, DecidableEq

/-- Go struct Message: subject, body, recipient lists, sender and
attachments. -/
structure Message where
  Subject : String := ""
  Body : MsgBody := {}
  ToRecipients : List Recipient := []
  CcRecipients : List Recipient := []
  BccRecipients : List Recipient := []
  From : Recipient := {}
  Attachments : List Attachment := []
  deriving Repr, DecidableEq

/-- Go struct Mail: wraps a Message under json tag message. -/
structure Mail where
  Message : Message := {}
  deriving Repr, DecidableEq

/-- Go func MakeMail: a fresh Mail whose body content type is Text and
whose recipient and attachment lists are empty. -/
def MakeMail : Mail :=
  { Message :=
    { Body := { ContentType := "Text" }
      ToRecipients := []
      CcRecipients := []
      BccRecipients := []
      From := {}
      Attachments := [] } }

/-- Go method (m *Mail) Subject. -/
def Mail.SetSubject (m : Mail) (subject : String) : Mail :=
  { m with Message := { m.Message with Subject := subject } }

/-- Go method (m *Mail) AddRecipient: variadic, accepts one argument
(address) or two (address, display name); any other arity returns an
error and leaves the mail unchanged. The returned pair is the updated
mail and the error (none on success). -/
def Mail.AddRecipient (m : Mail) (recipient : List String) : Mail × Option String :=
  match recipient with
  | [a] =>
      ({ m with Message := { m.Message with
          ToRecipients := m.Message.ToRecipients ++ [{ EmailAddress := { Address := a } }] } },
       none)
  | [a, n] =>
      ({ m with Message := { m.Message with
          ToRecipients := m.Message.ToRecipients ++ [{ EmailAddress := { Address := a, Name := n } }] } },
       none)
  | _ => (m, some "add recipient only accepts 1-2 arguments")

/-- Go method (m *Mail) CCRecipient. -/
def Mail.CCRecipient (m : Mail) (recipient : List String) : Mail × Option String :=
  match recipient with
  | [a] =>
      ({ m with Message := { m.Message with
          CcRecipients := m.Message.CcRecipients ++ [{ EmailAddress := { Address := a } }] } },
       none)
  | [a, n] =>
      ({ m with Message := { m.Message with
          CcRecipients := m.Message.CcRecipients ++ [{ EmailAddress := { Address := a, Name := n } }] } },
       none)
  | _ => (m, some "CCRecipient() only accepts 1-2 arguments")

/-- Go method (m *Mail) BCCRecipient. -/
def Mail.BCCRecipient (m : Mail) (recipient : List String) : Mail × Option String :=
  match recipient with
  | [a] =>
      ({ m with Message := { m.Message with
          BccRecipients := m.Message.BccRecipients ++ [{ EmailAddress := { Address := a } }] } },
       none)
  | [a, n] =>
      ({ m with Message := { m.Message with
          BccRecipients := m.Message.BccRecipients ++ [{ EmailAddress := { Address := a, Name := n } }] } },
       none)
  | _ => (m, some "BCCRecipient() only accepts 1-2 arguments")

/-- Go method (m *Mail) From: sets the sender. -/
def Mail.SetFrom (m : Mail) (from_ : List String) : Mail × Option String :=
  match from_ with
  | [a] =>
      ({ m with Message := { m.Message with From := { EmailAddress := { Address := a } } } }, none)
  | [a, n] =>
      ({ m with Message := { m.Message with From := { EmailAddress := { Address := a, Name := n } } } }, none)
  | _ => (m, some "From() only accepts 1-2 arguments")

/-- Go method (m *Mail) Body: sets body content type and content. -/
def Mail.SetBody (m : Mail) (contentType content : String) : Mail :=
  { m with Message := { m.Message with Body := { ContentType := contentType, Content := content } } }

/-- The standard base64 alphabet used by Go b64.StdEncoding. -/
def b64Alphabet : List Char :=
  "ABCDEFGHIJKLMNOPQRSTUVWXYZabcdefghijklmnopqrstuvwxyz0123456789+/".data

/-- The base64 digit for a 6-bit value. -/
def b64Char (n : Nat) : Char := b64Alphabet.getD n 'A'

/-- Standard base64 encoding with padding of a byte sequence,
as Go b64.StdEncoding.EncodeToString. -/
def b64StdEncode : List Nat → String
  | b1 :: b2 :: b3 :: rest =>
      String.mk [b64Char (b1 / 4), b64Char (b1 % 4 * 16 + b2 / 16),
                 b64Char (b2 % 16 * 4 + b3 / 64), b64Char (b3 % 64)]
        ++ b64StdEncode rest
  | [b1, b2] =>
      String.mk [b64Char (b1 / 4), b64Char (b1 % 4 * 16 + b2 / 16),
                 b64Char (b2 % 16 * 4), '=']
  | [b1] =>
      String.mk [b64Char (b1 / 4), b64Char (b1 % 4 * 16), '=', '=']
  | [] => ""

/-- The UTF-8 bytes of one character (code point), as used by the Go
conversion from string to a byte slice. -/
def utf8Bytes (c : Char) : List Nat :=
  let n := c.toNat
  if n < 128 then [n]
  else if n < 2048 then [192 + n / 64, 128 + n % 64]
  else if n < 65536 then [224 + n / 4096, 128 + n / 64 % 64, 128 + n % 64]
  else [240 + n / 262144, 128 + n / 4096 % 64, 128 + n / 64 % 64, 128 + n % 64]

/-- The UTF-8 bytes of a string, as the Go conversion from string to a
byte slice. -/
def strBytes (s : String) : List Nat := (s.data.map utf8Bytes).flatten

/-- Go method (m *Mail) AddFileAttachment: appends a file attachment
whose content bytes are the standard base64 encoding of the raw
content and whose odata type is the fixed file-attachment
discriminator. -/
def Mail.AddFileAttachment (m : Mail) (attachmentName contentType content : String) : Mail :=
  { m with Message := { m.Message with
      Attachments := m.Message.Attachments ++
        [{ DataType := "#microsoft.graph.fileAttachment"
           Name := attachmentName
           ContentType := contentType
           ContentBytes := b64StdEncode (strBytes content) }] } }

/-- Modelled from the spec: the Token type is defined outside the
provided sources; per the spec a credential holds an opaque bearer
value (access token) and an expiry instant. Time is modelled as a
natural number of seconds. -/
structure Token where
  AccessToken : String := ""
  ExpiresOn : Nat := 0
  deriving Repr, DecidableEq

/-- Modelled from the spec: the implementation-chosen safety margin
before hard expiry; the spec fixes its existence, not its value. -/
def tokenMargin : Nat := 300

/-- Modelled from the spec: Token.WantsToBeRefreshed is defined outside
the provided sources; per the spec a credential with expiry T is
refreshable once current time reaches T minus the safety margin. -/
def Token.WantsToBeRefreshed (t : Token) (now : Nat) : Bool :=
  decide (t.ExpiresOn ≤ now + tokenMargin)

/-- Modelled from the spec: the fixed remote API base URL constant,
defined outside the provided sources (the exact value is immaterial to
the claims). -/
def BaseURL : String := "https://graph.microsoft.com"

/-- Modelled from the spec: the fixed identity-endpoint base URL
constant, defined outside the provided sources. -/
def LoginBaseURL : String := "https://login.microsoftonline.com"

/-- Modelled from the spec: the fixed API version segment, defined
outside the provided sources. -/
def APIVersion : String := "v1.0"

/-- The fixed page-size cap; the source comment in makeGETAPICall
states it is currently 999 (the constant itself is defined outside the
provided sources). -/
def MaxPageSize : Nat := 999

/-- Go struct GraphClient: identity parameters and the cached token.
The sync.Mutex field is modelled separately by the event traces
below. -/
structure GraphClient where
  TenantID : String := ""
  ApplicationID : String := ""
  ClientSecret : String := ""
  token : Token := {}
  deriving Repr, DecidableEq

/-- The observable outcome of one HTTP round trip, abstracting
httpClient.Do plus ioutil.ReadAll: either a transport error (Do
failed), or a response with a status code, the body text that was
delivered, and an optional body-read error. -/
structure NetEnv where
  parseErr : Option String := none
  buildErr : Option String := none
  doResult : Except String (Nat × String × Option String) := .error ""
  deriving Repr

deriving instance DecidableEq for Except

/-- The structured error outcomes of performRequest, mirroring the
fmt.Errorf branches of the source. -/
inductive PerformError where
  | httpResponse (msg : String)
  | statusNotOK (status : Nat) (body : String)
  | readError (msg : String)
  | decodeError (msg : String)
  deriving Repr, DecidableEq

/-- Go method performRequest: performs the prepared request (its round
trip abstracted as doResult) and handles errors in source order: a
transport error first; then the body is read; a status outside 200-299
is an error carrying the status code and the delivered body text; then
a body-read error; otherwise the body is JSON-decoded into the
caller-supplied shape via the decode parameter and exactly the decode
outcome is returned. -/
def performRequest (doResult : Except String (Nat × String × Option String))
    (decode : String → Except String α) : Except PerformError α :=
  match doResult with
  | .error e => .error (.httpResponse e)
  | .ok (status, body, readErr) =>
    if status < 200 || status > 299 then
      .error (.statusNotOK status body)
    else
      match readErr with
      | some e => .error (.readError e)
      | none =>
        match decode body with
        | .error e => .error (.decodeError e)
        | .ok v => .ok v

/-- The structured error outcomes of refreshToken, mirroring the
fmt.Errorf branches of the source. -/
inductive RefreshError where
  | tenantEmpty
  | uriParse (msg : String)
  | httpRequest (msg : String)
  | tokenFetch (e : PerformError)
  deriving Repr, DecidableEq

/-- The outcome of refreshToken: the resulting client state, the error
if any, and (instrumentation for the spec property about network
calls) whether the network round trip was reached. -/
structure RefreshResult where
  client : GraphClient
  error : Option RefreshError
  netCalled : Bool
  deriving Repr, DecidableEq

/-- Go method refreshToken: fails fast if the tenant identifier is
empty; then builds the token URL (parse failure abstracted by the
environment), builds the POST request (build failure likewise), and
performs it; the cached token is assigned only after performRequest
returns without error. -/
def refreshToken (g : GraphClient) (env : NetEnv)
    (tokenDec : String → Except String Token) : RefreshResult :=
  if g.TenantID = "" then ⟨g, some .tenantEmpty, false⟩
  else
    match env.parseErr with
    | some e => ⟨g, some (.uriParse e), false⟩
    | none =>
      match env.buildErr with
      | some e => ⟨g, some (.httpRequest e), false⟩
      | none =>
        match performRequest env.doResult tokenDec with
        | .error e => ⟨g, some (.tokenFetch e), true⟩
        | .ok newToken => ⟨{ g with token := newToken }, none, true⟩

/-- Go func NewGraphClient: builds a client from the three identity
parameters (token zero-valued) and immediately refreshes the token
under the lock. -/
def NewGraphClient (tenantID applicationID clientSecret : String) (env : NetEnv)
    (tokenDec : String → Except String Token) : RefreshResult :=
  refreshToken
    { TenantID := tenantID, ApplicationID := applicationID, ClientSecret := clientSecret }
    env tokenDec

/-- The observable shape of an outgoing HTTP request. -/
structure Request where
  method : String
  urlPath : String
  query : List (String × String)
  headers : List (String × String)
  deriving Repr, DecidableEq

/-- The request-building part of makeGETAPICall (source lines 90-113):
a GET whose path is the API version segment appended to the base path,
whose headers carry application/json and the current access token, and
whose query is the caller parameters (an absent value initialized to
empty) with the page-size cap appended under the key dollar-top. -/
def buildGETRequest (g : GraphClient) (apicall : String)
    (getParams : Option (List (String × String))) : Request :=
  { method := "GET"
    urlPath := "/" ++ APIVersion ++ apicall
    headers := [("Content-Type", "application/json"), ("Authorization", g.token.AccessToken)]
    query := (getParams.getD []) ++ [("$top", toString MaxPageSize)] }

/-- The structured error outcomes of makeGETAPICall. -/
inductive CallError where
  | refresh (e : RefreshError)
  | uriParse (msg : String)
  | httpRequest (msg : String)
  | perform (e : PerformError)
  deriving Repr, DecidableEq

/-- The outcome of makeGETAPICall: the resulting client state, whether
refreshToken was invoked (instrumentation mirroring the instrumented
identity endpoint of the spec), the outgoing request if one was
issued, and the call result. -/
structure CallResult (α : Type) where
  client : GraphClient
  refreshed : Bool
  request : Option Request
  result : Except CallError α
  deriving Repr

/-- The tail of makeGETAPICall after the token check: URI parse,
request build, and performRequest. -/
def makeGETAPICallRest (g : GraphClient) (refreshed : Bool) (apicall : String)
    (getParams : Option (List (String × String))) (env : NetEnv)
    (decode : String → Except String α) : CallResult α :=
  match env.parseErr with
  | some e => ⟨g, refreshed, none, .error (.uriParse e)⟩
  | none =>
    match env.buildErr with
    | some e => ⟨g, refreshed, none, .error (.httpRequest e)⟩
    | none =>
      let req := buildGETRequest g apicall getParams
      ⟨g, refreshed, some req,
        match performRequest env.doResult decode with
        | .error e => .error (.perform e)
        | .ok v => .ok v⟩

/-- Go method makeGETAPICall: under the lock, first checks whether the
token wants to be refreshed at the current time and if so refreshes it
(returning the refresh error on failure), then builds and performs the
GET request. -/
def makeGETAPICall (g : GraphClient) (now : Nat) (apicall : String)
    (getParams : Option (List (String × String)))
    (refreshEnv : NetEnv) (tokenDec : String → Except String Token)
    (env : NetEnv) (decode : String → Except String α) : CallResult α :=
  if g.token.WantsToBeRefreshed now then
    let r := refreshToken g refreshEnv tokenDec
    match r.error with
    | some e => ⟨r.client, true, none, .error (.refresh e)⟩
    | none => makeGETAPICallRest r.client true apicall getParams env decode
  else
    makeGETAPICallRest g false apicall getParams env decode

/-- The structured error outcomes of GraphClient.UnmarshalJSON. -/
inductive UnmarshalError where
  | jsonErr (msg : String)
  | tenantEmpty
  | applicationEmpty
  | secretEmpty
  | cantGetToken (e : RefreshError)
  deriving Repr, DecidableEq

/-- Go method GraphClient.UnmarshalJSON: the JSON decode of the input
bytes into the three identity fields is abstracted as an Except value;
the fields are assigned one by one, each checked for emptiness before
the next is assigned, and finally the token is refreshed (without
acquiring the mutex). The Bool reports whether the network round trip
was reached. -/
def GraphClient.UnmarshalJSON (g : GraphClient)
    (data : Except String (String × String × String)) (env : NetEnv)
    (tokenDec : String → Except String Token) :
    GraphClient × Option UnmarshalError × Bool :=
  match data with
  | .error e => (g, some (.jsonErr e), false)
  | .ok (t, a, c) =>
    let g1 := { g with TenantID := t }
    if g1.TenantID = "" then (g1, some .tenantEmpty, false)
    else
      let g2 := { g1 with ApplicationID := a }
      if g2.ApplicationID = "" then (g2, some .applicationEmpty, false)
      else
        let g3 := { g2 with ClientSecret := c }
        if g3.ClientSecret = "" then (g3, some .secretEmpty, false)
        else
          match refreshToken g3 env tokenDec with
          | ⟨g4, some e, net⟩ => (g4, some (.cantGetToken e), net)
          | ⟨g4, none, net⟩ => (g4, none, net)

/-!
Lock-discipline model. The mutex field apiCall of GraphClient and the
accesses to the cached token are abstracted as event traces: one event
per Lock or Unlock of the mutex and per read or write of the token
field, emitted in the order the source performs them on each control
path. Control paths are enumerated by the Boolean branch outcomes.
-/

/-- One observable event on the shared client state. -/
inductive Ev where
  | lock
  | unlock
  | readTok
  | writeTok
  deriving Repr, DecidableEq

/-- The token events of refreshToken (source lines 43-76): the token
field is written exactly once, and only on the success path; the
function itself takes no lock. -/
def refreshTokenEvents (ok : Bool) : List Ev :=
  if ok then [Ev.writeTok] else []

/-- The events of makeGETAPICall after the token check (source lines
90-115): on a URI-parse or request-build failure the function returns
(deferred unlock) without touching the token; otherwise the token is
read when the Authorization header is attached, and the deferred
unlock runs at return. -/
def getCallTailEvents (buildOk : Bool) : List Ev :=
  (if buildOk then [Ev.readTok] else []) ++ [Ev.unlock]

/-- The events of makeGETAPICall (source lines 79-116): Lock, then the
token is read by WantsToBeRefreshed; if a refresh is wanted,
refreshToken runs (writing the token on success) and a failed refresh
returns early under the deferred unlock. -/
def makeGETAPICallEvents (wants refreshOk buildOk : Bool) : List Ev :=
  [Ev.lock, Ev.readTok] ++
    (if wants then
      (if refreshOk then Ev.writeTok :: getCallTailEvents buildOk else [Ev.unlock])
    else getCallTailEvents buildOk)

/-- The events of NewGraphClient (source lines 35-40): Lock, the
refreshToken events, deferred Unlock. -/
def newGraphClientEvents (refreshOk : Bool) : List Ev :=
  [Ev.lock] ++ refreshTokenEvents refreshOk ++ [Ev.unlock]

/-- The events of GraphClient.UnmarshalJSON (source lines 226-257):
when the decoded configuration is valid it calls refreshToken, with no
Lock or Unlock on any path. -/
def unmarshalJSONEvents (validCfg refreshOk : Bool) : List Ev :=
  if validCfg then refreshTokenEvents refreshOk else []

/-- Scans a trace keeping the lock depth; true when every token read
or write happens at positive depth (while the mutex is held). -/
def evsLocked : Nat → List Ev → Bool
  | _, [] => true
  | d, Ev.lock :: es => evsLocked (d + 1) es
  | d, Ev.unlock :: es => evsLocked (d - 1) es
  | d, Ev.readTok :: es => decide (0 < d) && evsLocked d es
  | d, Ev.writeTok :: es => decide (0 < d) && evsLocked d es

/-- A trace accesses the token only while holding the mutex. -/
def tokenAccessesLocked (es : List Ev) : Bool := evsLocked 0 es

/-!
JSON model. Go encoding/json is modelled at the level of a JSON value
tree: marshalling maps each struct to an object whose keys are the
struct tags in declaration order, and unmarshalling looks fields up by
key, leaving the zero value for an absent key and failing on a value
of the wrong shape, as encoding/json does for these struct types.
-/

/-- A JSON value, restricted to the shapes the mail model uses. -/
inductive Json where
  | str : String → Json
  | arr : List Json → Json
  | obj : List (String × Json) → Json
  deriving Repr

/-- Key lookup in a JSON object (first occurrence). -/
def jLookup (kvs : List (String × Json)) (k : String) : Option Json :=
  match kvs.find? (fun p => p.1 == k) with
  | some p => some p.2
  | none => none

/-- Decode a string field: missing key yields the zero value, a
non-string value fails. -/
def jStr (kvs : List (String × Json)) (k : String) : Option String :=
  match jLookup kvs k with
  | none => some ""
  | some (.str s) => some s
  | some _ => none

/-- Decode an array field: missing key yields the empty list, a
non-array value fails. -/
def jArr (kvs : List (String × Json)) (k : String) : Option (List Json) :=
  match jLookup kvs k with
  | none => some []
  | some (.arr js) => some js
  | some _ => none

/-- Fetch an object-typed field, the empty object standing for the
zero value of an absent key. -/
def jField (kvs : List (String × Json)) (k : String) : Json :=
  match jLookup kvs k with
  | some j => j
  | none => .obj []

/-- Decode every element of a JSON array, failing if any element
fails, as encoding/json does for slices. -/
def decodeList (g : Json → Option β) : List Json → Option (List β)
  | [] => some []
  | j :: js => do
      let x ← g j
      let xs ← decodeList g js
      pure (x :: xs)

/-- Marshalling of EmailAddress. -/
def EmailAddress.toJson (e : EmailAddress) : Json :=
  .obj [("name", .str e.Name), ("address", .str e.Address)]

/-- Unmarshalling of EmailAddress. -/
def EmailAddress.fromJson : Json → Option EmailAddress
  | .obj kvs => do
      let n ← jStr kvs "name"
      let a ← jStr kvs "address"
      pure { Name := n, Address := a }
  | _ => none

/-- Marshalling of Recipient. -/
def Recipient.toJson (r : Recipient) : Json :=
  .obj [("emailAddress", r.EmailAddress.toJson)]

/-- Unmarshalling of Recipient. -/
def Recipient.fromJson : Json → Option Recipient
  | .obj kvs => do
      let e ← EmailAddress.fromJson (jField kvs "emailAddress")
      pure { EmailAddress := e }
  | _ => none

/-- Marshalling of MsgBody. -/
def MsgBody.toJson (b : MsgBody) : Json :=
  .obj [("contentType", .str b.ContentType), ("content", .str b.Content)]

/-- Unmarshalling of MsgBody. -/
def MsgBody.fromJson : Json → Option MsgBody
  | .obj kvs => do
      let ct ← jStr kvs "contentType"
      let c ← jStr kvs "content"
      pure { ContentType := ct, Content := c }
  | _ => none

/-- Marshalling of Attachment. -/
def Attachment.toJson (a : Attachment) : Json :=
  .obj [("@odata.type", .str a.DataType), ("name", .str a.Name),
        ("contentType", .str a.ContentType), ("contentBytes", .str a.ContentBytes)]

/-- Unmarshalling of Attachment. -/
def Attachment.fromJson : Json → Option Attachment
  | .obj kvs => do
      let d ← jStr kvs "@odata.type"
      let n ← jStr kvs "name"
      let ct ← jStr kvs "contentType"
      let cb ← jStr kvs "contentBytes"
      pure { DataType := d, Name := n, ContentType := ct, ContentBytes := cb }
  | _ => none

/-- Marshalling of Message. -/
def Message.toJson (m : Message) : Json :=
  .obj [("subject", .str m.Subject),
        ("body", m.Body.toJson),
        ("toRecipients", .arr (m.ToRecipients.map Recipient.toJson)),
        ("ccRecipients", .arr (m.CcRecipients.map Recipient.toJson)),
        ("bccRecipients", .arr (m.BccRecipients.map Recipient.toJson)),
        ("from", m.From.toJson),
        ("attachments", .arr (m.Attachments.map Attachment.toJson))]

/-- Unmarshalling of Message. -/
def Message.fromJson : Json → Option Message
  | .obj kvs => do
      let s ← jStr kvs "subject"
      let b ← MsgBody.fromJson (jField kvs "body")
      let tos ← decodeList Recipient.fromJson (← jArr kvs "toRecipients")
      let ccs ← decodeList Recipient.fromJson (← jArr kvs "ccRecipients")
      let bccs ← decodeList Recipient.fromJson (← jArr kvs "bccRecipients")
      let f ← Recipient.fromJson (jField kvs "from")
      let atts ← decodeList Attachment.fromJson (← jArr kvs "attachments")
      pure { Subject := s, Body := b, ToRecipients := tos, CcRecipients := ccs,
             BccRecipients := bccs, From := f, Attachments := atts }
  | _ => none

/-- Marshalling of Mail. -/
def Mail.toJson (m : Mail) : Json :=
  .obj [("message", m.Message.toJson)]

/-- Unmarshalling of Mail. -/
def Mail.fromJson : Json → Option Mail
  | .obj kvs => do
      let msg ← Message.fromJson (jField kvs "message")
      pure { Message := msg }
  | _ => none

/-!
Theorems.
-/

/-- The concrete mail built by the spec example sequence: a fresh mail,
two recipients, an HTML body and one CSV attachment. -/
def mailBuilderExample : Mail :=
  let m0 := MakeMail
  let m1 := (m0.AddRecipient ["a@x.com"]).1
  let m2 := (m1.AddRecipient ["b@x.com", "B Name"]).1
  let m3 := m2.SetBody "HTML" "<b>hi</b>"
  m3.AddFileAttachment "f.csv" "text/plain" "a,b\n1,2\n"

/-- C7: AddRecipient called with zero arguments or with three or more
arguments returns the argument-count error and leaves the mail, in
particular its ToRecipients list, unchanged. -/
theorem addRecipient_wrong_arity (m : Mail) (args : List String)
    (h : args.length = 0 ∨ 3 ≤ args.length) :
    m.AddRecipient args = (m, some "add recipient only accepts 1-2 arguments") := by
  rcases args with _ | ⟨a, args⟩
  · rfl
  rcases args with _ | ⟨b, args⟩
  · simp at h
  rcases args with _ | ⟨c, args⟩
  · simp at h
  · rfl

/-- Witness for addRecipient_wrong_arity at the empty argument list. -/
theorem addRecipient_wrong_arity_witness :
    Mail.AddRecipient MakeMail [] =
      (MakeMail, some "add recipient only accepts 1-2 arguments") :=
  addRecipient_wrong_arity MakeMail [] (Or.inl rfl)

/-- C8: the example builder sequence yields exactly two To-recipients in
insertion order (the second with display name B Name), the body
content type HTML with content as given, and a single attachment with
the fixed file-attachment discriminator whose content bytes are the
standard base64 encoding of the raw content. -/
theorem mail_builder_example_correct :
    mailBuilderExample.Message.ToRecipients =
      [{ EmailAddress := { Address := "a@x.com" } },
       { EmailAddress := { Address := "b@x.com", Name := "B Name" } }] ∧
    mailBuilderExample.Message.Body = { ContentType := "HTML", Content := "<b>hi</b>" } ∧
    mailBuilderExample.Message.Attachments =
      [{ DataType := "#microsoft.graph.fileAttachment", Name := "f.csv",
         ContentType := "text/plain", ContentBytes := b64StdEncode (strBytes "a,b\n1,2\n") }] ∧
    b64StdEncode (strBytes "a,b\n1,2\n") = "YSxiCjEsMgo=" :=
  ⟨rfl, rfl, rfl, by decide⟩

/-- C2: whenever refreshToken returns an error, the whole client state,
in particular the cached token, is exactly what it was before the
call; and when it returns no error the token is exactly the one that
performRequest decoded. -/
theorem refreshToken_token_only_on_success (g : GraphClient) (env : NetEnv)
    (tokenDec : String → Except String Token) :
    ((refreshToken g env tokenDec).error ≠ none →
      (refreshToken g env tokenDec).client = g) ∧
    ((refreshToken g env tokenDec).error = none →
      ∃ tok, performRequest env.doResult tokenDec = .ok tok ∧
        (refreshToken g env tokenDec).client = { g with token := tok }) := by
  unfold refreshToken
  split
  · exact ⟨fun _ => rfl, fun hc => by simp at hc⟩
  · cases hp : env.parseErr with
    | some e => exact ⟨fun _ => rfl, fun hc => by simp at hc⟩
    | none =>
      cases hb : env.buildErr with
      | some e => exact ⟨fun _ => rfl, fun hc => by simp at hc⟩
      | none =>
        cases hr : performRequest env.doResult tokenDec with
        | error e => exact ⟨fun _ => rfl, fun hc => by simp at hc⟩
        | ok tok => exact ⟨fun hc => absurd rfl hc, fun _ => ⟨tok, rfl, rfl⟩⟩

/-- Witness for refreshToken_token_only_on_success at a failing
transport. -/
theorem refreshToken_token_only_on_success_witness :
    (refreshToken { TenantID := "t" } { doResult := .error "conn refused" }
        (fun _ => .error "nope")).client = { TenantID := "t" } :=
  (refreshToken_token_only_on_success { TenantID := "t" }
    { doResult := .error "conn refused" } (fun _ => .error "nope")).1 (by decide)

/-- C4: with all three identity fields empty, both construction paths
fail with the empty-field configuration error and never reach the
network round trip. -/
theorem construction_all_empty_config_error_no_network :
    (∀ env tokenDec,
      (NewGraphClient "" "" "" env tokenDec).error = some RefreshError.tenantEmpty ∧
      (NewGraphClient "" "" "" env tokenDec).netCalled = false) ∧
    (∀ g env tokenDec,
      (GraphClient.UnmarshalJSON g (.ok ("", "", "")) env tokenDec).2.1 =
        some UnmarshalError.tenantEmpty ∧
      (GraphClient.UnmarshalJSON g (.ok ("", "", "")) env tokenDec).2.2 = false) :=
  ⟨fun _ _ => ⟨rfl, rfl⟩, fun _ _ _ => ⟨rfl, rfl⟩⟩

/-- C10 first half helper, shared shape of the tail of refreshToken
with a non-empty tenant: the only configuration error of the direct
construction path, an empty tenant, cannot occur, and a well-formed
environment always reaches the network round trip. -/
theorem newGraphClient_no_config_check_on_app_and_secret
    (t a c : String) (env : NetEnv) (tokenDec : String → Except String Token)
    (ht : t ≠ "") :
    (NewGraphClient t a c env tokenDec).error ≠ some RefreshError.tenantEmpty ∧
    (env.parseErr = none → env.buildErr = none →
      (NewGraphClient t a c env tokenDec).netCalled = true) := by
  unfold NewGraphClient refreshToken
  rw [if_neg ht]
  cases hp : env.parseErr with
  | some e => exact ⟨by simp, fun hc => by simp at hc⟩
  | none =>
    cases hb : env.buildErr with
    | some e => exact ⟨by simp, fun _ hc => by simp at hc⟩
    | none =>
      cases performRequest env.doResult tokenDec with
      | error e => exact ⟨by simp, fun _ _ => rfl⟩
      | ok tok => exact ⟨by simp, fun _ _ => rfl⟩

/-- C10: NewGraphClient validates only the tenant identifier (a
non-empty tenant with empty application identifier or secret is never
rejected with the configuration error and, in a well-formed
environment, reaches the token network round trip), while
UnmarshalJSON rejects an empty value of any of the three identity
fields with a configuration error before any network call. -/
theorem newGraphClient_validates_only_tenant :
    (∀ t a c env tokenDec, t ≠ "" →
      (NewGraphClient t a c env tokenDec).error ≠ some RefreshError.tenantEmpty ∧
      (env.parseErr = none → env.buildErr = none →
        (NewGraphClient t a c env tokenDec).netCalled = true)) ∧
    (∀ g env tokenDec t a c, t = "" ∨ a = "" ∨ c = "" →
      ((GraphClient.UnmarshalJSON g (.ok (t, a, c)) env tokenDec).2.1 =
          some UnmarshalError.tenantEmpty ∨
       (GraphClient.UnmarshalJSON g (.ok (t, a, c)) env tokenDec).2.1 =
          some UnmarshalError.applicationEmpty ∨
       (GraphClient.UnmarshalJSON g (.ok (t, a, c)) env tokenDec).2.1 =
          some UnmarshalError.secretEmpty) ∧
      (GraphClient.UnmarshalJSON g (.ok (t, a, c)) env tokenDec).2.2 = false) := by
  constructor
  · exact fun t a c env tokenDec ht =>
      newGraphClient_no_config_check_on_app_and_secret t a c env tokenDec ht
  · intro g env tokenDec t a c h
    by_cases ht : t = ""
    · simp [GraphClient.UnmarshalJSON, ht]
    · by_cases ha : a = ""
      · simp [GraphClient.UnmarshalJSON, ht, ha]
      · by_cases hc : c = ""
        · simp [GraphClient.UnmarshalJSON, ht, ha, hc]
        · rcases h with h | h | h <;> contradiction

/-- Witness for newGraphClient_validates_only_tenant: a non-empty
tenant with empty application identifier and secret reaches the
network, and a decode with one empty field is rejected without the
network. -/
theorem newGraphClient_validates_only_tenant_witness :
    (NewGraphClient "tenant" "" "" { doResult := .ok (200, "{}", none) }
        (fun _ => .ok {})).netCalled = true ∧
    (GraphClient.UnmarshalJSON {} (.ok ("tenant", "", "secret"))
        { doResult := .ok (200, "{}", none) } (fun _ => .ok {})).2.2 = false :=
  ⟨(newGraphClient_validates_only_tenant.1 "tenant" "" ""
      { doResult := .ok (200, "{}", none) } (fun _ => .ok {}) (by decide)).2 rfl rfl,
   (newGraphClient_validates_only_tenant.2 {} { doResult := .ok (200, "{}", none) }
      (fun _ => .ok {}) "tenant" "" "secret" (Or.inr (Or.inl rfl))).2⟩

/-- Helper: the tail of makeGETAPICall passes the client state and the
refresh flag through unchanged. -/
theorem makeGETAPICallRest_state {α : Type} (g : GraphClient) (r : Bool)
    (apicall : String) (getParams : Option (List (String × String)))
    (env : NetEnv) (decode : String → Except String α) :
    (makeGETAPICallRest g r apicall getParams env decode).refreshed = r ∧
    (makeGETAPICallRest g r apicall getParams env decode).client = g := by
  unfold makeGETAPICallRest
  cases env.parseErr with
  | some e => exact ⟨rfl, rfl⟩
  | none =>
    cases env.buildErr with
    | some e => exact ⟨rfl, rfl⟩
    | none => exact ⟨rfl, rfl⟩

/-- Helper: any request issued by the tail of makeGETAPICall is the one
buildGETRequest constructs from the current client state. -/
theorem makeGETAPICallRest_request {α : Type} (g : GraphClient) (r : Bool)
    (apicall : String) (getParams : Option (List (String × String)))
    (env : NetEnv) (decode : String → Except String α) (req : Request)
    (h : (makeGETAPICallRest g r apicall getParams env decode).request = some req) :
    req = buildGETRequest g apicall getParams := by
  unfold makeGETAPICallRest at h
  cases hp : env.parseErr with
  | some e => rw [hp] at h; simp at h
  | none =>
    rw [hp] at h
    cases hb : env.buildErr with
    | some e => rw [hb] at h; simp at h
    | none => rw [hb] at h; simp at h; exact h.symm

/-- C3: makeGETAPICall invokes the refresh exactly when, at the moment
the call starts, the current time has reached the expiry instant minus
the fixed safety margin; in particular a call made strictly before
that boundary never refreshes and leaves the client state untouched. -/
theorem makeGETAPICall_refresh_iff_stale {α : Type} (g : GraphClient) (now : Nat)
    (apicall : String) (getParams : Option (List (String × String)))
    (refreshEnv : NetEnv) (tokenDec : String → Except String Token)
    (env : NetEnv) (decode : String → Except String α) :
    ((makeGETAPICall g now apicall getParams refreshEnv tokenDec env decode).refreshed
      = decide (g.token.ExpiresOn ≤ now + tokenMargin)) ∧
    (now + tokenMargin < g.token.ExpiresOn →
      (makeGETAPICall g now apicall getParams refreshEnv tokenDec env decode).refreshed
        = false ∧
      (makeGETAPICall g now apicall getParams refreshEnv tokenDec env decode).client = g) := by
  unfold makeGETAPICall
  by_cases hw : g.token.WantsToBeRefreshed now
  · have hd : decide (g.token.ExpiresOn ≤ now + tokenMargin) = true := hw
    rw [if_pos hw]
    constructor
    · cases hr : (refreshToken g refreshEnv tokenDec).error with
      | some e => simp [hr, hd]
      | none =>
        simp only [hr]
        rw [(makeGETAPICallRest_state _ _ _ _ _ _).1, hd]
    · intro hlt
      exact absurd (of_decide_eq_true hd) (by omega)
  · have hd : decide (g.token.ExpiresOn ≤ now + tokenMargin) = false := by
      simpa [Token.WantsToBeRefreshed] using hw
    rw [if_neg hw]
    refine ⟨?_, fun _ => ⟨?_, ?_⟩⟩
    · rw [(makeGETAPICallRest_state _ _ _ _ _ _).1, hd]
    · exact (makeGETAPICallRest_state _ _ _ _ _ _).1
    · exact (makeGETAPICallRest_state _ _ _ _ _ _).2

/-- Witness for makeGETAPICall_refresh_iff_stale: a token expiring at
time 1000 is not refreshed by a call at time 0. -/
theorem makeGETAPICall_refresh_iff_stale_witness :
    (makeGETAPICall { token := { AccessToken := "tok", ExpiresOn := 1000 } } 0 "/users" none
        { doResult := .error "offline" } (fun _ => .error "offline")
        { doResult := .ok (200, "{}", none) } (fun _ => .ok (0 : Nat))).refreshed = false :=
  (makeGETAPICall_refresh_iff_stale { token := { AccessToken := "tok", ExpiresOn := 1000 } }
    0 "/users" none { doResult := .error "offline" } (fun _ => .error "offline")
    { doResult := .ok (200, "{}", none) } (fun _ => .ok (0 : Nat))).2 (by decide) |>.1

/-- C6: every request that makeGETAPICall issues is a GET whose path is
the fixed API version segment followed by the resource path, whose
query is the caller parameters (empty when absent) with the page-size
cap appended under the dollar-top key, and whose headers carry
application/json and the current access token of the (possibly just
refreshed) client. -/
theorem makeGETAPICall_request_shape {α : Type} (g : GraphClient) (now : Nat)
    (apicall : String) (getParams : Option (List (String × String)))
    (refreshEnv : NetEnv) (tokenDec : String → Except String Token)
    (env : NetEnv) (decode : String → Except String α) (req : Request)
    (h : (makeGETAPICall g now apicall getParams refreshEnv tokenDec env decode).request
        = some req) :
    req.method = "GET" ∧
    req.urlPath = "/" ++ APIVersion ++ apicall ∧
    req.query = (getParams.getD []) ++ [("$top", toString MaxPageSize)] ∧
    req.headers = [("Content-Type", "application/json"),
      ("Authorization",
        (makeGETAPICall g now apicall getParams refreshEnv tokenDec env decode).client.token.AccessToken)] := by
  have key : req = buildGETRequest
      (makeGETAPICall g now apicall getParams refreshEnv tokenDec env decode).client
      apicall getParams := by
    unfold makeGETAPICall at h ⊢
    by_cases hw : g.token.WantsToBeRefreshed now
    · rw [if_pos hw] at h ⊢
      cases hr : (refreshToken g refreshEnv tokenDec).error with
      | some e => simp only [hr] at h; simp at h
      | none =>
        simp only [hr] at h ⊢
        rw [(makeGETAPICallRest_state _ _ _ _ _ _).2]
        exact makeGETAPICallRest_request _ _ _ _ _ _ _ h
    · rw [if_neg hw] at h ⊢
      rw [(makeGETAPICallRest_state _ _ _ _ _ _).2]
      exact makeGETAPICallRest_request _ _ _ _ _ _ _ h
  subst key
  exact ⟨rfl, rfl, rfl, rfl⟩

/-- Witness for makeGETAPICall_request_shape on a concrete call. -/
theorem makeGETAPICall_request_shape_witness :
    (buildGETRequest { token := { AccessToken := "tok", ExpiresOn := 1000 } } "/users"
        none).method = "GET" ∧
    (buildGETRequest { token := { AccessToken := "tok", ExpiresOn := 1000 } } "/users"
        none).urlPath = "/" ++ APIVersion ++ "/users" ∧
    (buildGETRequest { token := { AccessToken := "tok", ExpiresOn := 1000 } } "/users"
        none).query = ((none : Option (List (String × String))).getD [])
          ++ [("$top", toString MaxPageSize)] ∧
    (buildGETRequest { token := { AccessToken := "tok", ExpiresOn := 1000 } } "/users"
        none).headers = [("Content-Type", "application/json"),
      ("Authorization",
        (makeGETAPICall { token := { AccessToken := "tok", ExpiresOn := 1000 } } 0 "/users"
            none { doResult := .error "offline" } (fun _ => .error "offline")
            { doResult := .ok (200, "{}", none) }
            (fun _ => .ok (0 : Nat))).client.token.AccessToken)] :=
  makeGETAPICall_request_shape { token := { AccessToken := "tok", ExpiresOn := 1000 } } 0
    "/users" none { doResult := .error "offline" } (fun _ => .error "offline")
    { doResult := .ok (200, "{}", none) } (fun _ => .ok (0 : Nat))
    (buildGETRequest { token := { AccessToken := "tok", ExpiresOn := 1000 } } "/users" none)
    (by decide)

/-- C5 counterexample: on a 2xx response whose body read fails,
performRequest does not return the decode outcome the claim predicts
(here the decode would succeed with the value 0); it returns the
body-read error without decoding. -/
theorem performRequest_read_error_counterexample :
    performRequest (.ok (200, "x", some "read failure")) (fun _ => .ok (0 : Nat)) =
      .error (.readError "read failure") ∧
    performRequest (.ok (200, "x", some "read failure")) (fun _ => .ok (0 : Nat)) ≠
      .ok 0 := by
  constructor
  · rfl
  · decide

/-- C5 (amended): a response with a status outside 200-299 yields the
error carrying the status code and the delivered body text with no
decode attempted; a 2xx response whose body was read without error is
decoded and exactly the decode outcome is returned; a 2xx response
whose body read failed yields the read error without decoding. -/
theorem performRequest_status_and_decode {α : Type} (status : Nat) (body : String)
    (decode : String → Except String α) :
    ((status < 200 ∨ 299 < status) → ∀ readErr,
      performRequest (.ok (status, body, readErr)) decode =
        .error (.statusNotOK status body)) ∧
    (200 ≤ status → status ≤ 299 →
      performRequest (.ok (status, body, none)) decode =
        (match decode body with
         | .error e => .error (.decodeError e)
         | .ok v => .ok v)) ∧
    (200 ≤ status → status ≤ 299 → ∀ e,
      performRequest (.ok (status, body, some e)) decode = .error (.readError e)) := by
  refine ⟨fun h readErr => ?_, fun h1 h2 => ?_, fun h1 h2 e => ?_⟩
  · have hc : (status < 200 || status > 299) = true := by
      rcases h with h | h <;> simp [h]
    simp [performRequest, hc]
  · have hc : (status < 200 || status > 299) = false := by
      simp; omega
    cases hd : decode body with
    | error e => simp [performRequest, hc, hd]
    | ok v => simp [performRequest, hc, hd]
  · have hc : (status < 200 || status > 299) = false := by
      simp; omega
    simp [performRequest, hc]

/-- Witness for performRequest_status_and_decode: a 500 response with
body text is reported as a status error carrying both. -/
theorem performRequest_status_and_decode_witness :
    performRequest (.ok (500, "server broke", none)) (fun _ => .ok (0 : Nat)) =
      .error (.statusNotOK 500 "server broke") :=
  (performRequest_status_and_decode 500 "server broke" (fun _ => .ok (0 : Nat))).1
    (Or.inr (by decide)) none

/-- C1 counterexample: the UnmarshalJSON path with a valid
configuration and a successful refresh writes the cached token while
holding no lock, so not every token-mutating path runs under the
mutex. -/
theorem unmarshalJSON_token_write_unlocked :
    tokenAccessesLocked (unmarshalJSONEvents true true) = false := by decide

/-- C1 (amended): on every control path, makeGETAPICall and
NewGraphClient read and write the cached token only while holding the
single exclusive mutex, but the UnmarshalJSON path mutates the token
outside the mutex. -/
theorem lock_discipline_of_token_paths (wants refreshOk buildOk : Bool) :
    tokenAccessesLocked (makeGETAPICallEvents wants refreshOk buildOk) = true ∧
    tokenAccessesLocked (newGraphClientEvents refreshOk) = true ∧
    tokenAccessesLocked (unmarshalJSONEvents true true) = false := by
  revert wants refreshOk buildOk
  decide

/-- Helper: decoding elementwise inverts encoding elementwise. -/
theorem decodeList_map_roundtrip {β : Type} (f : β → Json) (g : Json → Option β)
    (h : ∀ x, g (f x) = some x) (l : List β) : decodeList g (l.map f) = some l := by
  induction l with
  | nil => rfl
  | cons x xs ih => simp [decodeList, h, ih]

/-- Helper: EmailAddress JSON encode then decode is the identity. -/
theorem emailAddress_roundtrip (e : EmailAddress) :
    EmailAddress.fromJson e.toJson = some e := rfl

/-- Helper: Recipient JSON encode then decode is the identity. -/
theorem recipient_roundtrip (r : Recipient) :
    Recipient.fromJson r.toJson = some r := rfl

/-- Helper: MsgBody JSON encode then decode is the identity. -/
theorem msgBody_roundtrip (b : MsgBody) :
    MsgBody.fromJson b.toJson = some b := rfl

/-- Helper: Attachment JSON encode then decode is the identity. -/
theorem attachment_roundtrip (a : Attachment) :
    Attachment.fromJson a.toJson = some a := rfl

/-- Helper: Message JSON encode then decode is the identity. -/
theorem message_roundtrip (msg : Message) : Message.fromJson msg.toJson = some msg := by
  obtain ⟨s, b, tos, ccs, bccs, f, atts⟩ := msg
  simp [Message.toJson, Message.fromJson, jStr, jArr, jField, jLookup, List.find?,
        msgBody_roundtrip, recipient_roundtrip,
        decodeList_map_roundtrip _ _ recipient_roundtrip,
        decodeList_map_roundtrip _ _ attachment_roundtrip]

/-- C9: serializing any Mail value to JSON and deserializing the result
yields the identical Mail, so recipient lists, attachments and body
survive the round trip unchanged; in particular this holds for every
mail built by the builder operations. -/
theorem mail_json_roundtrip (m : Mail) : Mail.fromJson (Mail.toJson m) = some m := by
  obtain ⟨msg⟩ := m
  simp [Mail.toJson, Mail.fromJson, jField, jLookup, List.find?, message_roundtrip]
